import Mathlib

/-!
Verification of the grid-escape game-state engine.

Shallow embedding of the Python sources
`pygame_grid_escape/game_logic/{board,pawn,player,game_state}.py`.
Mutating methods become pure functions returning the updated value together
with the method's return value.  The board's occupancy dictionary becomes a
function from cells to optional pawn references; a pawn is referenced by the
pair (owner index in the players list, pawn id).
-/

namespace GridEscape

/-- A cell of the grid: an integer coordinate pair, as in the Python tuples. -/
abbrev Cell := Int × Int

/-- Reference to a pawn object: (index of owner in `players`, pawn id). -/
abbrev PawnRef := Nat × Nat

/-- `Board.GRID_SIZE = 7` in `board.py`. -/
def gridSize : Int := 7

/-- `Pawn` from `pawn.py`: owner's player id, pawn id, `_position`, `_escaped`. -/
structure Pawn where
  playerId : Nat
  pawnId : Nat
  position : Option Cell
  escaped : Bool
deriving DecidableEq

/-- `Player` from `player.py`: `player_id`, cosmetic `color`, the pawn roster. -/
structure Player where
  playerId : Nat
  color : Nat × Nat × Nat
  pawns : List Pawn
deriving DecidableEq

/-- `Board` from `board.py`: the `_intersections` occupancy map. -/
structure Board where
  occ : Cell → Option PawnRef

/-- Game phases `PLAYING = 0`, `GAME_OVER = 1` of `game_state.py`. -/
inductive Phase where
  | playing
  | gameOver
deriving DecidableEq

/-- `GameState` fields from `game_state.py` (`players` is always the two-element
list `[Player 1, Player 2]`, embedded as two fields). -/
structure GameState where
  player1 : Player
  player2 : Player
  board : Board
  phase : Phase
  currentPlayerIndex : Nat
  selectedPawn : Option PawnRef
  winner : Option Player
  turnSkipped : Bool
  skippedPlayerId : Option Nat
  stalemate : Bool

/-- `Board.is_valid_position`. -/
def Board.is_valid_position (_b : Board) (x y : Int) : Bool :=
  decide (0 ≤ x) && decide (x < gridSize) && decide (0 ≤ y) && decide (y < gridSize)

/-- `Board.is_intersection_empty`. -/
def Board.is_intersection_empty (b : Board) (x y : Int) : Bool :=
  if b.is_valid_position x y = false then false
  else (b.occ (x, y)).isNone

/-- `Board.get_pawn_at_intersection`. -/
def Board.get_pawn_at_intersection (b : Board) (x y : Int) : Option PawnRef :=
  if b.is_valid_position x y = false then none
  else b.occ (x, y)

/-- `Board.place_pawn`: returns (success, updated board). -/
def Board.place_pawn (b : Board) (p : PawnRef) (x y : Int) : Bool × Board :=
  if b.is_valid_position x y = false || b.is_intersection_empty x y = false then
    (false, b)
  else
    (true, { b with occ := fun c => if c = (x, y) then some p else b.occ c })

/-- `Board.remove_pawn`: returns (removed pawn, updated board). -/
def Board.remove_pawn (b : Board) (x y : Int) : Option PawnRef × Board :=
  if b.is_valid_position x y = false then (none, b)
  else
    (b.occ (x, y), { b with occ := fun c => if c = (x, y) then none else b.occ c })

/-- `Board.move_pawn`: returns (success, updated board). -/
def Board.move_pawn (b : Board) (fx fy tx ty : Int) : Bool × Board :=
  if b.is_valid_position fx fy = false || b.is_valid_position tx ty = false
      || (b.occ (fx, fy)).isNone || b.is_intersection_empty tx ty = false then
    (false, b)
  else
    (true, { b with occ := (fun c =>
        if c = (tx, ty) then b.occ (fx, fy)
        else if c = (fx, fy) then none
        else b.occ c) })

/-- `Board.is_starting_position` (takes the player's id; the Python method
reads `player.player_id`). Player 1: row y = 6, x in [1,5]; player 2:
column x = 6, y in [1,5]. -/
def Board.is_starting_position (b : Board) (x y : Int) (player_id : Nat) : Bool :=
  if b.is_valid_position x y = false then false
  else if player_id = 1 then decide (y = 6) && decide (1 ≤ x) && decide (x ≤ 5)
  else if player_id = 2 then decide (x = 6) && decide (1 ≤ y) && decide (y ≤ 5)
  else false

/-- `Board.is_escape_position`. Player 1: row y = 0, x in [1,5]; player 2:
column x = 0, y in [1,5]. -/
def Board.is_escape_position (b : Board) (x y : Int) (player_id : Nat) : Bool :=
  if b.is_valid_position x y = false then false
  else if player_id = 1 then decide (y = 0) && decide (1 ≤ x) && decide (x ≤ 5)
  else if player_id = 2 then decide (x = 0) && decide (1 ≤ y) && decide (y ≤ 5)
  else false

/-- `Board.get_adjacent_intersections`: up, down, left, right, kept in the
source's direction order, filtered to valid cells. -/
def Board.get_adjacent_intersections (b : Board) (x y : Int) : List Cell :=
  if b.is_valid_position x y = false then []
  else
    [(x, y - 1), (x, y + 1), (x - 1, y), (x + 1, y)].filter
      (fun c => b.is_valid_position c.1 c.2)

/-- `Board.get_valid_moves_from_position`: adjacent and empty. -/
def Board.get_valid_moves_from_position (b : Board) (x y : Int) : List Cell :=
  (b.get_adjacent_intersections x y).filter (fun c => b.is_intersection_empty c.1 c.2)

/-- `Board.clear_board`. -/
def Board.clear_board (b : Board) : Board :=
  { b with occ := fun _ => none }

/-- `Pawn.set_position`: assigns the cell and clears the escaped flag. -/
def Pawn.set_position (p : Pawn) (x y : Int) : Pawn :=
  { p with position := some (x, y), escaped := false }

/-- `Pawn.escape`: sets the escaped flag and clears the position. -/
def Pawn.escape (p : Pawn) : Pawn :=
  { p with escaped := true, position := none }

/-- `Pawn.is_on_board`. -/
def Pawn.is_on_board (p : Pawn) : Bool :=
  p.position.isSome && !p.escaped

/-- `Pawn.is_escaped`. -/
def Pawn.is_escaped (p : Pawn) : Bool :=
  p.escaped

/-- `Pawn.get_valid_moves`: empty off-board; otherwise the adjacent empty
cells filtered by the owner's direction (player 1: strictly decreasing y;
player 2: strictly decreasing x). -/
def Pawn.get_valid_moves (p : Pawn) (b : Board) : List Cell :=
  if p.is_on_board = false then []
  else
    match p.position with
    | none => []
    | some (x, y) =>
      (b.get_valid_moves_from_position x y).filter (fun c =>
        (decide (p.playerId = 1) && decide (c.2 < y))
        || (decide (p.playerId = 2) && decide (c.1 < x)))

/-- `Pawn.can_move_to`. -/
def Pawn.can_move_to (p : Pawn) (b : Board) (to_x to_y : Int) : Bool :=
  if p.is_on_board = false || p.position.isNone then false
  else decide ((to_x, to_y) ∈ p.get_valid_moves b)

/-- `Player.get_pawns`. -/
def Player.get_pawns (pl : Player) : List Pawn :=
  pl.pawns

/-- `Player.get_pawns_on_board`. -/
def Player.get_pawns_on_board (pl : Player) : List Pawn :=
  pl.pawns.filter (fun p => p.is_on_board)

/-- `Player.get_escaped_pawns`. -/
def Player.get_escaped_pawns (pl : Player) : List Pawn :=
  pl.pawns.filter (fun p => p.is_escaped)

/-- `Player.get_unplaced_pawns`. -/
def Player.get_unplaced_pawns (pl : Player) : List Pawn :=
  pl.pawns.filter (fun p => !p.is_on_board && !p.is_escaped)

/-- `Player.has_won`: all 7 pawns escaped. -/
def Player.has_won (pl : Player) : Bool :=
  decide (pl.get_escaped_pawns.length = 7)

/-- `Player.can_move_any_pawn`. -/
def Player.can_move_any_pawn (pl : Player) (b : Board) : Bool :=
  pl.get_pawns_on_board.any (fun p => !(p.get_valid_moves b).isEmpty)

/-- `Player.__init__`: id, color, and 7 pawns with ids 0..6. -/
def Player.make (pid : Nat) (color : Nat × Nat × Nat) : Player :=
  { playerId := pid
    color := color
    pawns := (List.range 7).map (fun i =>
      { playerId := pid, pawnId := i, position := none, escaped := false }) }

/-- The player at index `i` of the `players` list (always 0 or 1). -/
def GameState.get_player (s : GameState) (i : Nat) : Player :=
  if i = 0 then s.player1 else s.player2

/-- `GameState.get_current_player`. -/
def GameState.get_current_player (s : GameState) : Player :=
  s.get_player s.currentPlayerIndex

/-- `GameState.get_other_player`. -/
def GameState.get_other_player (s : GameState) : Player :=
  s.get_player ((s.currentPlayerIndex + 1) % 2)

/-- `GameState.check_victory`: first player (in list order) who has won. -/
def GameState.check_victory (s : GameState) : Option Player :=
  if s.player1.has_won then some s.player1
  else if s.player2.has_won then some s.player2
  else none

/-- `GameState.can_player_move`. -/
def GameState.can_player_move (s : GameState) (pl : Player) : Bool :=
  pl.can_move_any_pawn s.board

/-- `GameState.is_game_over`. -/
def GameState.is_game_over (s : GameState) : Bool :=
  decide (s.phase = Phase.gameOver)

/-- `GameState.get_winner`. -/
def GameState.get_winner (s : GameState) : Option Player :=
  s.winner

/-- The pawn object passed to an action, looked up as (player index, pawn id);
the fallback value is never hit for the indices the theorems use. -/
def GameState.get_pawn (s : GameState) (pIdx i : Nat) : Pawn :=
  ((s.get_player pIdx).pawns.find? (fun p => decide (p.pawnId = i))).getD
    { playerId := (s.get_player pIdx).playerId, pawnId := i, position := none, escaped := true }

/-- In-place mutation of the pawn object (player `pIdx`, id `i`), which is
aliased inside the owner's roster list. -/
def GameState.update_pawn (s : GameState) (pIdx i : Nat) (f : Pawn → Pawn) : GameState :=
  if pIdx = 0 then
    { s with player1 := { s.player1 with
        pawns := s.player1.pawns.map (fun p => if p.pawnId = i then f p else p) } }
  else
    { s with player2 := { s.player2 with
        pawns := s.player2.pawns.map (fun p => if p.pawnId = i then f p else p) } }

/-- How far the skip-scan `while` loop of `switch_turn` exited. -/
inductive ScanExit where
  | early
  | brk
  | exhausted
deriving DecidableEq

/-- The `while players_checked < len(self.players)` loop of
`GameState.switch_turn`, with fuel `len(players) - players_checked`.
`early` is the in-loop stalemate return (current id already checked),
`brk` the break when the current player can move, `exhausted` the normal
loop exit with `players_checked >= len(players)`. -/
def GameState.scan_loop (s : GameState) (checked : List Nat) : Nat → GameState × ScanExit
  | 0 => (s, ScanExit.exhausted)
  | fuel + 1 =>
    let cp := s.get_current_player
    if cp.playerId ∈ checked then
      ({ s with stalemate := true, phase := Phase.gameOver }, ScanExit.early)
    else
      if s.can_player_move cp then (s, ScanExit.brk)
      else
        let s2 := { s with
          turnSkipped := true
          skippedPlayerId := some cp.playerId
          currentPlayerIndex := (s.currentPlayerIndex + 1) % 2 }
        s2.scan_loop (cp.playerId :: checked) fuel

/-- `GameState.switch_turn`: returns the updated state and the Python return
value `(turn_skipped, skipped_player_id)`. -/
def GameState.switch_turn (s : GameState) : GameState × Bool × Option Nat :=
  if s.phase = Phase.gameOver then (s, false, none)
  else
    let s1 := { s with turnSkipped := false, skippedPlayerId := none, selectedPawn := none }
    match s1.check_victory with
    | some w => ({ s1 with winner := some w, phase := Phase.gameOver }, false, none)
    | none =>
      let s2 := { s1 with currentPlayerIndex := (s1.currentPlayerIndex + 1) % 2 }
      if s2.phase = Phase.playing then
        match s2.scan_loop [] 2 with
        | (s3, ScanExit.early) => (s3, false, none)
        | (s3, ScanExit.brk) => (s3, s3.turnSkipped, s3.skippedPlayerId)
        | (s3, ScanExit.exhausted) =>
          ({ s3 with stalemate := true, phase := Phase.gameOver }, false, none)
      else (s2, s2.turnSkipped, s2.skippedPlayerId)

/-- `GameState.reset_game`. -/
def GameState.reset_game (s : GameState) : GameState :=
  { s with
    board := s.board.clear_board
    player1 := { s.player1 with pawns := (s.player1.pawns.map
        (fun p => { p with position := none, escaped := false })) }
    player2 := { s.player2 with pawns := (s.player2.pawns.map
        (fun p => { p with position := none, escaped := false })) }
    phase := Phase.playing
    currentPlayerIndex := 0
    selectedPawn := none
    winner := none
    turnSkipped := false
    skippedPlayerId := none
    stalemate := false }

/-- `GameState.place_pawn`: no phase check in the source; ownership check is
the object-identity test `pawn.player != current_player`, which for the two
distinct player objects is the index test. -/
def GameState.place_pawn (s : GameState) (pIdx i : Nat) (x y : Int) : GameState × Bool :=
  if pIdx ≠ s.currentPlayerIndex then (s, false)
  else if s.board.is_starting_position x y (s.get_player pIdx).playerId = false then (s, false)
  else
    match s.board.place_pawn (pIdx, i) x y with
    | (false, b2) => ({ s with board := b2 }, false)
    | (true, b2) =>
      let s2 := ({ s with board := b2 }).update_pawn pIdx i (fun p => p.set_position x y)
      let s3 := { s2 with currentPlayerIndex := (s2.currentPlayerIndex + 1) % 2 }
      match s3.check_victory with
      | some w => ({ s3 with winner := some w, phase := Phase.gameOver }, true)
      | none => (s3, true)

/-- `GameState.move_pawn`: phase, ownership, on-board and valid-destination
checks, then `board.move_pawn` plus `pawn.set_position` (the source does not
delegate to `Pawn.move_to`, so no escape handling happens here). -/
def GameState.move_pawn (s : GameState) (pIdx i : Nat) (to_x to_y : Int) : GameState × Bool :=
  if s.phase ≠ Phase.playing then (s, false)
  else if pIdx ≠ s.currentPlayerIndex then (s, false)
  else
    match (s.get_pawn pIdx i).position with
    | none => (s, false)
    | some (from_x, from_y) =>
      if (to_x, to_y) ∉ (s.get_pawn pIdx i).get_valid_moves s.board then (s, false)
      else
        match s.board.move_pawn from_x from_y to_x to_y with
        | (false, b2) => ({ s with board := b2 }, false)
        | (true, b2) =>
          let s2 := ({ s with board := b2 }).update_pawn pIdx i (fun p => p.set_position to_x to_y)
          let s3 := { s2 with currentPlayerIndex := (s2.currentPlayerIndex + 1) % 2 }
          match s3.check_victory with
          | some w => ({ s3 with winner := some w, phase := Phase.gameOver }, true)
          | none => (s3, true)

/-- `GameState.escape_pawn`. -/
def GameState.escape_pawn (s : GameState) (pIdx i : Nat) : GameState × Bool :=
  if s.phase ≠ Phase.playing then (s, false)
  else if pIdx ≠ s.currentPlayerIndex then (s, false)
  else
    match (s.get_pawn pIdx i).position with
    | none => (s, false)
    | some (x, y) =>
      if s.board.is_escape_position x y (s.get_player pIdx).playerId = false then (s, false)
      else
        let b2 := (s.board.remove_pawn x y).2
        let s2 := ({ s with board := b2 }).update_pawn pIdx i (fun p => p.escape)
        let s3 := { s2 with currentPlayerIndex := (s2.currentPlayerIndex + 1) % 2 }
        match s3.check_victory with
        | some w => ({ s3 with winner := some w, phase := Phase.gameOver }, true)
        | none => (s3, true)

/-- `GameState.__init__`. -/
def initial_game_state : GameState :=
  { player1 := Player.make 1 (0, 102, 204)
    player2 := Player.make 2 (204, 0, 0)
    board := { occ := fun _ => none }
    phase := Phase.playing
    currentPlayerIndex := 0
    selectedPawn := none
    winner := none
    turnSkipped := false
    skippedPlayerId := none
    stalemate := false }

/-! Concrete states reached by legal play, used in the concrete theorems. -/

/-- Reached from a fresh game by one `switch_turn` call: with no pawn on the
board neither player can move, so the scan declares stalemate. -/
def after_first_switch : GameState :=
  (initial_game_state.switch_turn).1

/-- Play: player 1 walks pawn 0 from the start cell (2,6) up to (2,1) while
player 2 walks pawn 0 from (6,5) to (1,5); player 1 to act, phase active. -/
def state_pawn_before_escape_row : GameState :=
  (((((((((((((initial_game_state.place_pawn 0 0 2 6).1.place_pawn 1 0 6 5).1.move_pawn
    0 0 2 5).1.move_pawn 1 0 5 5).1.move_pawn 0 0 2 4).1.move_pawn 1 0 4 5).1.move_pawn
    0 0 2 3).1.move_pawn 1 0 3 5).1.move_pawn 0 0 2 2).1.move_pawn 1 0 2 5).1.move_pawn
    0 0 2 1).1.move_pawn 1 0 1 5).1)

/-- One `move_pawn` later (player 1 moved onto the escape cell (2,0)):
player 2 to act with its pawn 0 on (1,5), one step before its escape column. -/
def state_p2_before_escape_col : GameState :=
  (state_pawn_before_escape_row.move_pawn 0 0 2 0).1

/-- Play: player 2's only pawn sits stuck on (0,5) (its escape column, no
further leftward cell), player 1 has pawn 0 on (3,1) and a movable pawn 1 on
(5,6); player 1 to act. -/
def state_opponent_stuck : GameState :=
  (((((((((((((((initial_game_state.place_pawn 0 0 3 6).1.place_pawn 1 0 6 5).1.move_pawn
    0 0 3 5).1.move_pawn 1 0 5 5).1.move_pawn 0 0 3 4).1.move_pawn 1 0 4 5).1.move_pawn
    0 0 3 3).1.move_pawn 1 0 3 5).1.move_pawn 0 0 3 2).1.move_pawn 1 0 2 5).1.move_pawn
    0 0 3 1).1.move_pawn 1 0 1 5).1.place_pawn 0 1 5 6).1.move_pawn 1 0 0 5).1)

/-- The double-placement sequence: player 1 places pawn 0 on (1,6), player 2
places pawn 0 on (6,1), then player 1 places the already-on-board pawn 0
again on (2,6). -/
def state_double_placement : GameState :=
  (((initial_game_state.place_pawn 0 0 1 6).1.place_pawn 1 0 6 1).1.place_pawn 0 0 2 6).1

/-- Directly constructed test-harness state: all 7 of player 1's pawns
escaped while the phase is still active (the spec's victory scenario allows
direct construction). -/
def state_all_escaped : GameState :=
  { initial_game_state with player1 := { initial_game_state.player1 with
      pawns := (initial_game_state.player1.pawns.map
        (fun p => { p with escaped := true, position := none })) } }

/-! ## Theorems -/

/-- C1, counterexample: in the reachable state with player 1's pawn 0 on
(2,1) and player 1 to act, `move_pawn` into the empty escape cell (2,0)
returns true, but contrary to the claim the token is NOT escaped and the
destination cell is NOT empty (the token occupies it). -/
theorem c1_counterexample_move_does_not_autoescape :
    state_pawn_before_escape_row.phase = Phase.playing ∧
    state_pawn_before_escape_row.board.is_escape_position 2 0 1 = true ∧
    state_pawn_before_escape_row.board.is_intersection_empty 2 0 = true ∧
    (state_pawn_before_escape_row.move_pawn 0 0 2 0).2 = true ∧
    ¬ (((state_pawn_before_escape_row.move_pawn 0 0 2 0).1.get_pawn 0 0).is_escaped = true ∧
        (state_pawn_before_escape_row.move_pawn 0 0 2 0).1.board.is_intersection_empty 2 0 = true) := by
  decide

/-- C2, counterexample: after player 1's successful move to (3,0), the
opposing player 2 has no legal move while player 1 still does, yet the turn
simply passes to player 2 with no skip recorded (`turn_skipped` stays false,
`skipped_player_id` stays none, game still active). -/
theorem c2_counterexample_no_skip_scan_after_action :
    (state_opponent_stuck.move_pawn 0 0 3 0).2 = true ∧
    ((state_opponent_stuck.move_pawn 0 0 3 0).1.player2.can_move_any_pawn
      (state_opponent_stuck.move_pawn 0 0 3 0).1.board) = false ∧
    ((state_opponent_stuck.move_pawn 0 0 3 0).1.player1.can_move_any_pawn
      (state_opponent_stuck.move_pawn 0 0 3 0).1.board) = true ∧
    (state_opponent_stuck.move_pawn 0 0 3 0).1.currentPlayerIndex = 1 ∧
    (state_opponent_stuck.move_pawn 0 0 3 0).1.turnSkipped = false ∧
    (state_opponent_stuck.move_pawn 0 0 3 0).1.skippedPlayerId = none ∧
    (state_opponent_stuck.move_pawn 0 0 3 0).1.stalemate = false ∧
    (state_opponent_stuck.move_pawn 0 0 3 0).1.phase = Phase.playing := by
  decide

/-- C3: evaluation at the failing input. Three placements from a fresh game,
the third placing player 1's pawn 0 while it is already on the board, all
succeed; afterwards cell (1,6) is still occupied on the board although no
on-board token of either player has position (1,6) — the occupancy/position
invariant is broken. -/
theorem c3_double_placement_breaks_occupancy_invariant :
    (initial_game_state.place_pawn 0 0 1 6).2 = true ∧
    ((initial_game_state.place_pawn 0 0 1 6).1.place_pawn 1 0 6 1).2 = true ∧
    (((initial_game_state.place_pawn 0 0 1 6).1.place_pawn 1 0 6 1).1.place_pawn 0 0 2 6).2 = true ∧
    (state_double_placement.board.occ (1, 6)).isSome = true ∧
    ((state_double_placement.player1.pawns ++ state_double_placement.player2.pawns).all
      (fun p => !(p.is_on_board && decide (p.position = some (1, 6))))) = true := by
  decide

/-- C5: evaluation at the failing input. After the reachable stalemate
game-over state, `place_pawn` still succeeds (the source has no phase check)
and mutates the state: player 2's pawn 0 goes from unplaced to (6,1). -/
theorem c5_place_pawn_ignores_game_over :
    after_first_switch.phase = Phase.gameOver ∧
    (after_first_switch.get_pawn 1 0).position = none ∧
    (after_first_switch.place_pawn 1 0 6 1).2 = true ∧
    ((after_first_switch.place_pawn 1 0 6 1).1.get_pawn 1 0).position = some (6, 1) := by
  decide

/-- C8: evaluation at the failing input. With all 7 of player 1's pawns
escaped and the phase still active, `check_victory` does return player 1,
but the next successful action — player 1 re-placing its escaped pawn 0 on
(1,6) — clears the pawn's escaped flag, so the victory is cancelled: the
phase stays active and the winner stays none, contrary to the claim that the
next successful action commits the victory. -/
theorem c8_replacing_escaped_token_cancels_victory :
    state_all_escaped.phase = Phase.playing ∧
    state_all_escaped.player1.has_won = true ∧
    state_all_escaped.check_victory = some state_all_escaped.player1 ∧
    (state_all_escaped.place_pawn 0 0 1 6).2 = true ∧
    (state_all_escaped.place_pawn 0 0 1 6).1.phase = Phase.playing ∧
    (state_all_escaped.place_pawn 0 0 1 6).1.winner = none := by
  decide


/-- Helper: a failed `Board.place_pawn` returns the board unchanged. -/
theorem Board.place_pawn_false (b : Board) (p : PawnRef) (x y : Int) (b2 : Board)
    (h : b.place_pawn p x y = (false, b2)) : b2 = b := by
  unfold Board.place_pawn at h
  split at h
  · injection h with h1 h2
    exact h2.symm
  · simp at h

/-- Helper: a failed `Board.move_pawn` returns the board unchanged. -/
theorem Board.move_pawn_false (b : Board) (fx fy tx ty : Int) (b2 : Board)
    (h : b.move_pawn fx fy tx ty = (false, b2)) : b2 = b := by
  unfold Board.move_pawn at h
  split at h
  · injection h with h1 h2
    exact h2.symm
  · simp at h

/-- C4: every rejected mutating call leaves the state unchanged: the three
actions when they return false, and `switch_turn` when the phase is already
game over (the only case the source treats as a no-op). -/
theorem c4_rejected_calls_leave_state_unchanged (s : GameState) (pIdx i : Nat) (x y : Int) :
    ((s.place_pawn pIdx i x y).2 = false → (s.place_pawn pIdx i x y).1 = s) ∧
    ((s.move_pawn pIdx i x y).2 = false → (s.move_pawn pIdx i x y).1 = s) ∧
    ((s.escape_pawn pIdx i).2 = false → (s.escape_pawn pIdx i).1 = s) ∧
    (s.phase = Phase.gameOver → (s.switch_turn).1 = s) := by
  refine ⟨?_, ?_, ?_, ?_⟩
  · intro h
    rcases hres : s.place_pawn pIdx i x y with ⟨s1, ok⟩
    rw [hres] at h
    unfold GameState.place_pawn at hres
    split at hres
    · injection hres with h1 h2
      exact h1.symm
    · split at hres
      · injection hres with h1 h2
        exact h1.symm
      · dsimp only at hres
        split at hres
        · rename_i b2 heq
          injection hres with h1 h2
          rw [← h1, Board.place_pawn_false s.board (pIdx, i) x y b2 heq]
        · rename_i b2 heq
          split at hres <;>
          · injection hres with h1 h2
            subst h2
            simp at h
  · intro h
    rcases hres : s.move_pawn pIdx i x y with ⟨s1, ok⟩
    rw [hres] at h
    unfold GameState.move_pawn at hres
    split at hres
    · injection hres with h1 h2
      exact h1.symm
    · split at hres
      · injection hres with h1 h2
        exact h1.symm
      · split at hres
        · injection hres with h1 h2
          exact h1.symm
        · rename_i fxy from_x from_y hpos
          split at hres
          · injection hres with h1 h2
            exact h1.symm
          · dsimp only at hres
            split at hres
            · rename_i b2 heq
              injection hres with h1 h2
              rw [← h1, Board.move_pawn_false s.board from_x from_y x y b2 heq]
            · rename_i b2 heq
              split at hres <;>
              · injection hres with h1 h2
                subst h2
                simp at h
  · intro h
    rcases hres : s.escape_pawn pIdx i with ⟨s1, ok⟩
    rw [hres] at h
    unfold GameState.escape_pawn at hres
    split at hres
    · injection hres with h1 h2
      exact h1.symm
    · split at hres
      · injection hres with h1 h2
        exact h1.symm
      · split at hres
        · injection hres with h1 h2
          exact h1.symm
        · split at hres
          · injection hres with h1 h2
            exact h1.symm
          · dsimp only at hres
            split at hres <;>
            · injection hres with h1 h2
              subst h2
              simp at h
  · intro h
    unfold GameState.switch_turn
    rw [if_pos h]

/-- C4 witness: a rejected placement (wrong owner) on the fresh game and a
`switch_turn` call on the game-over stalemate state both leave the state
unchanged. -/
theorem c4_witness :
    (initial_game_state.place_pawn 1 0 1 6).1 = initial_game_state ∧
    (after_first_switch.switch_turn).1 = after_first_switch :=
  ⟨(c4_rejected_calls_leave_state_unchanged initial_game_state 1 0 1 6).1 (by decide),
   (c4_rejected_calls_leave_state_unchanged after_first_switch 0 0 0 0).2.2.2 (by decide)⟩


/-- C2, amended: a successful action advances the turn index to the other
player and leaves all skip bookkeeping untouched — no skip-scan runs inside
the actions. -/
theorem c2_amended_actions_run_no_skip_scan (s : GameState) (pIdx i : Nat) (x y : Int) :
    ((s.place_pawn pIdx i x y).2 = true →
      (s.place_pawn pIdx i x y).1.currentPlayerIndex = (s.currentPlayerIndex + 1) % 2 ∧
      (s.place_pawn pIdx i x y).1.turnSkipped = s.turnSkipped ∧
      (s.place_pawn pIdx i x y).1.skippedPlayerId = s.skippedPlayerId ∧
      (s.place_pawn pIdx i x y).1.stalemate = s.stalemate) ∧
    ((s.move_pawn pIdx i x y).2 = true →
      (s.move_pawn pIdx i x y).1.currentPlayerIndex = (s.currentPlayerIndex + 1) % 2 ∧
      (s.move_pawn pIdx i x y).1.turnSkipped = s.turnSkipped ∧
      (s.move_pawn pIdx i x y).1.skippedPlayerId = s.skippedPlayerId ∧
      (s.move_pawn pIdx i x y).1.stalemate = s.stalemate) ∧
    ((s.escape_pawn pIdx i).2 = true →
      (s.escape_pawn pIdx i).1.currentPlayerIndex = (s.currentPlayerIndex + 1) % 2 ∧
      (s.escape_pawn pIdx i).1.turnSkipped = s.turnSkipped ∧
      (s.escape_pawn pIdx i).1.skippedPlayerId = s.skippedPlayerId ∧
      (s.escape_pawn pIdx i).1.stalemate = s.stalemate) := by
  refine ⟨?_, ?_, ?_⟩
  · intro h
    rcases hres : s.place_pawn pIdx i x y with ⟨s1, ok⟩
    rw [hres] at h
    unfold GameState.place_pawn at hres
    split at hres
    · injection hres with h1 h2
      subst h2
      simp at h
    · split at hres
      · injection hres with h1 h2
        subst h2
        simp at h
      · dsimp only at hres
        split at hres
        · injection hres with h1 h2
          subst h2
          simp at h
        · split at hres <;>
          · injection hres with h1 h2
            subst h1
            unfold GameState.update_pawn
            split <;> simp
  · intro h
    rcases hres : s.move_pawn pIdx i x y with ⟨s1, ok⟩
    rw [hres] at h
    unfold GameState.move_pawn at hres
    split at hres
    · injection hres with h1 h2
      subst h2
      simp at h
    · split at hres
      · injection hres with h1 h2
        subst h2
        simp at h
      · split at hres
        · injection hres with h1 h2
          subst h2
          simp at h
        · split at hres
          · injection hres with h1 h2
            subst h2
            simp at h
          · dsimp only at hres
            split at hres
            · injection hres with h1 h2
              subst h2
              simp at h
            · split at hres <;>
              · injection hres with h1 h2
                subst h1
                unfold GameState.update_pawn
                split <;> simp
  · intro h
    rcases hres : s.escape_pawn pIdx i with ⟨s1, ok⟩
    rw [hres] at h
    unfold GameState.escape_pawn at hres
    split at hres
    · injection hres with h1 h2
      subst h2
      simp at h
    · split at hres
      · injection hres with h1 h2
        subst h2
        simp at h
      · split at hres
        · injection hres with h1 h2
          subst h2
          simp at h
        · split at hres
          · injection hres with h1 h2
            subst h2
            simp at h
          · dsimp only at hres
            split at hres <;>
            · injection hres with h1 h2
              subst h1
              unfold GameState.update_pawn
              split <;> simp
  
/-- C2 witness: the first legal placement of a fresh game flips the turn to
player 2 and leaves the skip bookkeeping untouched. -/
theorem c2_amended_witness :
    (initial_game_state.place_pawn 0 0 1 6).1.currentPlayerIndex = 1 ∧
    (initial_game_state.place_pawn 0 0 1 6).1.turnSkipped = false := by
  have h := (c2_amended_actions_run_no_skip_scan initial_game_state 0 0 1 6).1 (by decide)
  exact ⟨h.1, h.2.1⟩


/-- Helper: emptiness already includes validity. -/
theorem empty_and_valid (b : Board) (x y : Int) :
    (b.is_intersection_empty x y && b.is_valid_position x y) = b.is_intersection_empty x y := by
  unfold Board.is_intersection_empty
  cases hv : b.is_valid_position x y <;> simp [hv]

/-- Helper: a player-1 pawn standing on a valid cell (x, y) has exactly the
forward cell (x, y-1) as candidate, present iff that cell is empty. -/
theorem get_valid_moves_p1 (pw : Pawn) (b : Board) (x y : Int)
    (hpid : pw.playerId = 1) (hpos : pw.position = some (x, y)) (hesc : pw.escaped = false)
    (hval : b.is_valid_position x y = true) :
    pw.get_valid_moves b =
      (if b.is_intersection_empty x (y - 1) then [(x, y - 1)] else []) := by
  unfold Pawn.get_valid_moves
  rw [hpos]
  simp only [Pawn.is_on_board, hpos, hesc, Option.isSome_some, Bool.not_false, Bool.and_self]
  simp only [Bool.true_eq_false, if_false]
  unfold Board.get_valid_moves_from_position Board.get_adjacent_intersections
  rw [hval]
  simp only [Bool.true_eq_false, if_false, List.filter_filter, hpid]
  have h11 : (decide ((1 : Nat) = 1)) = true := rfl
  have h12 : (decide ((1 : Nat) = 2)) = false := rfl
  have e1 : decide (y - 1 < y) = true := by simp only [decide_eq_true_eq]; omega
  have e2 : decide (y + 1 < y) = false := by simp only [decide_eq_false_iff_not]; omega
  have e3 : decide (y < y) = false := by simp only [decide_eq_false_iff_not]; omega
  cases hbe : b.is_intersection_empty x (y - 1) <;>
    simp [List.filter_cons, e1, e2, e3, h11, h12, empty_and_valid, hbe]

/-- Helper: same for a player-2 pawn: only the forward cell (x-1, y). -/
theorem get_valid_moves_p2 (pw : Pawn) (b : Board) (x y : Int)
    (hpid : pw.playerId = 2) (hpos : pw.position = some (x, y)) (hesc : pw.escaped = false)
    (hval : b.is_valid_position x y = true) :
    pw.get_valid_moves b =
      (if b.is_intersection_empty (x - 1) y then [(x - 1, y)] else []) := by
  unfold Pawn.get_valid_moves
  rw [hpos]
  simp only [Pawn.is_on_board, hpos, hesc, Option.isSome_some, Bool.not_false, Bool.and_self]
  simp only [Bool.true_eq_false, if_false]
  unfold Board.get_valid_moves_from_position Board.get_adjacent_intersections
  rw [hval]
  simp only [Bool.true_eq_false, if_false, List.filter_filter, hpid]
  have h21 : (decide ((2 : Nat) = 1)) = false := rfl
  have h22 : (decide ((2 : Nat) = 2)) = true := rfl
  have e1 : decide (x - 1 < x) = true := by simp only [decide_eq_true_eq]; omega
  have e2 : decide (x + 1 < x) = false := by simp only [decide_eq_false_iff_not]; omega
  have e3 : decide (x < x) = false := by simp only [decide_eq_false_iff_not]; omega
  cases hbe : b.is_intersection_empty (x - 1) y <;>
    simp [List.filter_cons, e1, e2, e3, h21, h22, empty_and_valid, hbe]

/-- Helper: a pawn that is not on the board has no valid moves. -/
theorem get_valid_moves_off_board (pw : Pawn) (b : Board) (h : pw.is_on_board = false) :
    pw.get_valid_moves b = [] := by
  unfold Pawn.get_valid_moves
  rw [h]
  simp


/-- C6: for an on-board token standing on a valid cell, `get_valid_moves`
is exactly the single forward neighbour on the owner's advance axis —
(x, y-1) for player 1, (x-1, y) for player 2 — present iff that cell is an
empty (hence valid) board cell; lateral and backward neighbours never occur,
and an off-board (unplaced or escaped) token has no valid moves. -/
theorem c6_valid_moves_forward_only (pw : Pawn) (b : Board) (x y : Int)
    (hpos : pw.position = some (x, y)) (hesc : pw.escaped = false)
    (hval : b.is_valid_position x y = true) :
    (pw.playerId = 1 → pw.get_valid_moves b =
      (if b.is_intersection_empty x (y - 1) then [(x, y - 1)] else [])) ∧
    (pw.playerId = 2 → pw.get_valid_moves b =
      (if b.is_intersection_empty (x - 1) y then [(x - 1, y)] else [])) ∧
    (∀ q : Pawn, q.is_on_board = false → q.get_valid_moves b = []) :=
  ⟨fun hpid => get_valid_moves_p1 pw b x y hpid hpos hesc hval,
   fun hpid => get_valid_moves_p2 pw b x y hpid hpos hesc hval,
   fun q hq => get_valid_moves_off_board q b hq⟩

/-- C6 witness: on the empty fresh board, a player-1 pawn on (2,1) has
exactly [(2,0)] and a player-2 pawn on (1,2) exactly [(0,2)]. -/
theorem c6_witness :
    Pawn.get_valid_moves ⟨1, 0, some (2, 1), false⟩ initial_game_state.board = [(2, 0)] ∧
    Pawn.get_valid_moves ⟨2, 0, some (1, 2), false⟩ initial_game_state.board = [(0, 2)] := by
  constructor
  · rw [(c6_valid_moves_forward_only ⟨1, 0, some (2, 1), false⟩ initial_game_state.board
      2 1 rfl rfl (by decide)).1 rfl]
    decide
  · rw [(c6_valid_moves_forward_only ⟨2, 0, some (1, 2), false⟩ initial_game_state.board
      1 2 rfl rfl (by decide)).2.1 rfl]
    decide


/-- Helper: looking up pawn id `i` after the in-place update of pawn `i`
returns the updated pawn, for update functions that keep the id. -/
theorem find?_map_update (l : List Pawn) (i : Nat) (f : Pawn → Pawn) (pw : Pawn)
    (hf : ∀ p : Pawn, (f p).pawnId = p.pawnId)
    (h : l.find? (fun p => decide (p.pawnId = i)) = some pw) :
    (l.map (fun p => if p.pawnId = i then f p else p)).find?
      (fun p => decide (p.pawnId = i)) = some (f pw) := by
  induction l with
  | nil => simp at h
  | cons a l ih =>
    by_cases ha : a.pawnId = i
    · rw [List.find?_cons_of_pos _ (by simp [ha])] at h
      injection h with h1
      subst h1
      simp only [List.map_cons, if_pos ha]
      rw [List.find?_cons_of_pos _ (by simp [hf, ha])]
    · rw [List.find?_cons_of_neg _ (by simp [ha])] at h
      simp only [List.map_cons, if_neg ha]
      rw [List.find?_cons_of_neg _ (by simp [ha])]
      exact ih h

/-- Helper for C1, player-1 case: with player 1 to act in an active state, a
player-1 token on (x,1) whose forward cell (x,0) is an empty escape cell:
`move_pawn` into (x,0) returns true, but the token stays on board at (x,0),
not escaped, and the escape cell is occupied. -/
theorem move_into_escape_cell_p1 (s : GameState) (i : Nat) (x : Int) (pw : Pawn)
    (hphase : s.phase = Phase.playing)
    (hidx : s.currentPlayerIndex = 0)
    (hfind : s.player1.pawns.find? (fun p => decide (p.pawnId = i)) = some pw)
    (hpid : pw.playerId = 1) (hpos : pw.position = some (x, 1)) (hesc : pw.escaped = false)
    (hx1 : 1 ≤ x) (hx5 : x ≤ 5)
    (hempty : s.board.occ (x, 0) = none)
    (hocc : s.board.occ (x, 1) = some (0, i)) :
    s.board.is_escape_position x 0 1 = true ∧
    (s.move_pawn 0 i x 0).2 = true ∧
    ((s.move_pawn 0 i x 0).1.get_pawn 0 i).is_escaped = false ∧
    ((s.move_pawn 0 i x 0).1.get_pawn 0 i).position = some (x, 0) ∧
    (s.move_pawn 0 i x 0).1.board.is_intersection_empty x 0 = false := by
  have hv1 : s.board.is_valid_position x 1 = true := by
    unfold Board.is_valid_position gridSize
    simp only [Bool.and_eq_true, decide_eq_true_eq]
    omega
  have hv0 : s.board.is_valid_position x 0 = true := by
    unfold Board.is_valid_position gridSize
    simp only [Bool.and_eq_true, decide_eq_true_eq]
    omega
  have hemp0 : s.board.is_intersection_empty x 0 = true := by
    unfold Board.is_intersection_empty
    rw [hv0]
    simp [hempty]
  have hesc_cell : s.board.is_escape_position x 0 1 = true := by
    unfold Board.is_escape_position
    rw [hv0]
    simp only [Bool.true_eq_false, if_false, if_true, decide_True, Bool.true_and,
      Bool.and_eq_true, decide_eq_true_eq]
    exact ⟨hx1, hx5⟩
  have hgp : s.get_pawn 0 i = pw := by
    unfold GameState.get_pawn GameState.get_player
    simp [hfind]
  have hvm : pw.get_valid_moves s.board = [(x, 0)] := by
    rw [get_valid_moves_p1 pw s.board x 1 hpid hpos hesc hv1]
    norm_num [hemp0]
  refine ⟨hesc_cell, ?_⟩
  unfold GameState.move_pawn
  rw [hgp, hpos, hvm]
  rw [if_neg (by simp [hphase]), if_neg (by simp [hidx])]
  simp only [List.mem_singleton, not_true_eq_false, if_false, ite_false]
  rcases hbm : s.board.move_pawn x 1 x 0 with ⟨ok, b2⟩
  have hcond : ¬ ((s.board.is_valid_position x 1 = false
      || s.board.is_valid_position x 0 = false
      || (s.board.occ (x, 1)).isNone
      || s.board.is_intersection_empty x 0 = false) = true) := by
    simp [hv1, hv0, hocc, hemp0]
  have hbm2 : ok = true ∧ b2.occ (x, 0) = some (0, i) := by
    unfold Board.move_pawn at hbm
    rw [if_neg hcond] at hbm
    injection hbm with h1 h2
    refine ⟨h1.symm, ?_⟩
    rw [← h2]
    simp [hocc]
  obtain ⟨hok, hb2occ⟩ := hbm2
  subst hok
  have hempb : b2.is_intersection_empty x 0 = false := by
    unfold Board.is_intersection_empty
    rw [show b2.is_valid_position x 0 = true from hv0]
    simp [hb2occ]
  have hgot : ((({ s with board := b2 } : GameState).update_pawn 0 i
      (fun p => p.set_position x 0)).get_pawn 0 i) = pw.set_position x 0 := by
    unfold GameState.get_pawn GameState.get_player GameState.update_pawn
    simp only [eq_self_iff_true, ite_true]
    rw [find?_map_update s.player1.pawns i (fun p => p.set_position x 0) pw
      (fun p => rfl) hfind]
    rfl
  dsimp only
  split
  · refine ⟨rfl, ?_, ?_, hempb⟩
    · show ((({ s with board := b2 } : GameState).update_pawn 0 i
        (fun p => p.set_position x 0)).get_pawn 0 i).is_escaped = false
      rw [hgot]
      rfl
    · show ((({ s with board := b2 } : GameState).update_pawn 0 i
        (fun p => p.set_position x 0)).get_pawn 0 i).position = some (x, 0)
      rw [hgot]
      rfl
  · refine ⟨rfl, ?_, ?_, hempb⟩
    · show ((({ s with board := b2 } : GameState).update_pawn 0 i
        (fun p => p.set_position x 0)).get_pawn 0 i).is_escaped = false
      rw [hgot]
      rfl
    · show ((({ s with board := b2 } : GameState).update_pawn 0 i
        (fun p => p.set_position x 0)).get_pawn 0 i).position = some (x, 0)
      rw [hgot]
      rfl


/-- Helper for C1, player-2 case: with player 2 to act in an active state, a
player-2 token on (1,y) whose forward cell (0,y) is an empty escape cell:
`move_pawn` into (0,y) returns true, but the token stays on board at (0,y),
not escaped, and the escape cell is occupied. -/
theorem move_into_escape_cell_p2 (s : GameState) (i : Nat) (y : Int) (pw : Pawn)
    (hphase : s.phase = Phase.playing)
    (hidx : s.currentPlayerIndex = 1)
    (hfind : s.player2.pawns.find? (fun p => decide (p.pawnId = i)) = some pw)
    (hpid : pw.playerId = 2) (hpos : pw.position = some (1, y)) (hesc : pw.escaped = false)
    (hy1 : 1 ≤ y) (hy5 : y ≤ 5)
    (hempty : s.board.occ (0, y) = none)
    (hocc : s.board.occ (1, y) = some (1, i)) :
    s.board.is_escape_position 0 y 2 = true ∧
    (s.move_pawn 1 i 0 y).2 = true ∧
    ((s.move_pawn 1 i 0 y).1.get_pawn 1 i).is_escaped = false ∧
    ((s.move_pawn 1 i 0 y).1.get_pawn 1 i).position = some (0, y) ∧
    (s.move_pawn 1 i 0 y).1.board.is_intersection_empty 0 y = false := by
  have hv1 : s.board.is_valid_position 1 y = true := by
    unfold Board.is_valid_position gridSize
    simp only [Bool.and_eq_true, decide_eq_true_eq]
    omega
  have hv0 : s.board.is_valid_position 0 y = true := by
    unfold Board.is_valid_position gridSize
    simp only [Bool.and_eq_true, decide_eq_true_eq]
    omega
  have hemp0 : s.board.is_intersection_empty 0 y = true := by
    unfold Board.is_intersection_empty
    rw [hv0]
    simp [hempty]
  have hesc_cell : s.board.is_escape_position 0 y 2 = true := by
    unfold Board.is_escape_position
    rw [hv0]
    simp only [Bool.true_eq_false, if_false, if_true, decide_True, Bool.true_and]
    rw [if_neg (by decide)]
    simp only [Bool.and_eq_true, decide_eq_true_eq]
    exact ⟨hy1, hy5⟩
  have hgp : s.get_pawn 1 i = pw := by
    unfold GameState.get_pawn GameState.get_player
    simp [hfind]
  have hvm : pw.get_valid_moves s.board = [(0, y)] := by
    rw [get_valid_moves_p2 pw s.board 1 y hpid hpos hesc hv1]
    norm_num [hemp0]
  refine ⟨hesc_cell, ?_⟩
  unfold GameState.move_pawn
  rw [hgp, hpos, hvm]
  rw [if_neg (by simp [hphase]), if_neg (by simp [hidx])]
  simp only [List.mem_singleton, not_true_eq_false, if_false, ite_false]
  rcases hbm : s.board.move_pawn 1 y 0 y with ⟨ok, b2⟩
  have hcond : ¬ ((s.board.is_valid_position 1 y = false
      || s.board.is_valid_position 0 y = false
      || (s.board.occ (1, y)).isNone
      || s.board.is_intersection_empty 0 y = false) = true) := by
    simp [hv1, hv0, hocc, hemp0]
  have hbm2 : ok = true ∧ b2.occ (0, y) = some (1, i) := by
    unfold Board.move_pawn at hbm
    rw [if_neg hcond] at hbm
    injection hbm with h1 h2
    refine ⟨h1.symm, ?_⟩
    rw [← h2]
    simp [hocc]
  obtain ⟨hok, hb2occ⟩ := hbm2
  subst hok
  have hempb : b2.is_intersection_empty 0 y = false := by
    unfold Board.is_intersection_empty
    rw [show b2.is_valid_position 0 y = true from hv0]
    simp [hb2occ]
  have hgot : ((({ s with board := b2 } : GameState).update_pawn 1 i
      (fun p => p.set_position 0 y)).get_pawn 1 i) = pw.set_position 0 y := by
    unfold GameState.get_pawn GameState.get_player GameState.update_pawn
    simp only [Nat.one_ne_zero, ite_false, if_false]
    rw [find?_map_update s.player2.pawns i (fun p => p.set_position 0 y) pw
      (fun p => rfl) hfind]
    rfl
  dsimp only
  split
  · refine ⟨rfl, ?_, ?_, hempb⟩
    · show ((({ s with board := b2 } : GameState).update_pawn 1 i
        (fun p => p.set_position 0 y)).get_pawn 1 i).is_escaped = false
      rw [hgot]
      rfl
    · show ((({ s with board := b2 } : GameState).update_pawn 1 i
        (fun p => p.set_position 0 y)).get_pawn 1 i).position = some (0, y)
      rw [hgot]
      rfl
  · refine ⟨rfl, ?_, ?_, hempb⟩
    · show ((({ s with board := b2 } : GameState).update_pawn 1 i
        (fun p => p.set_position 0 y)).get_pawn 1 i).is_escaped = false
      rw [hgot]
      rfl
    · show ((({ s with board := b2 } : GameState).update_pawn 1 i
        (fun p => p.set_position 0 y)).get_pawn 1 i).position = some (0, y)
      rw [hgot]
      rfl

/-- C1, amended: for either player to act in an active state with one of its
tokens standing adjacent-forward to an empty escape cell of its owner —
player 1 on (x,1) before escape cell (x,0), player 2 on (1,y) before escape
cell (0,y) — `move_pawn` into the escape cell returns true, but the token is
NOT escaped: it stays on board at the escape cell and the cell is occupied
(escaping requires a separate `escape_pawn` call on a later turn of the same
player). -/
theorem c1_amended_move_into_escape_cell :
    (∀ (s : GameState) (i : Nat) (x : Int) (pw : Pawn),
      s.phase = Phase.playing → s.currentPlayerIndex = 0 →
      s.player1.pawns.find? (fun p => decide (p.pawnId = i)) = some pw →
      pw.playerId = 1 → pw.position = some (x, 1) → pw.escaped = false →
      1 ≤ x → x ≤ 5 → s.board.occ (x, 0) = none → s.board.occ (x, 1) = some (0, i) →
      s.board.is_escape_position x 0 1 = true ∧
      (s.move_pawn 0 i x 0).2 = true ∧
      ((s.move_pawn 0 i x 0).1.get_pawn 0 i).is_escaped = false ∧
      ((s.move_pawn 0 i x 0).1.get_pawn 0 i).position = some (x, 0) ∧
      (s.move_pawn 0 i x 0).1.board.is_intersection_empty x 0 = false) ∧
    (∀ (s : GameState) (i : Nat) (y : Int) (pw : Pawn),
      s.phase = Phase.playing → s.currentPlayerIndex = 1 →
      s.player2.pawns.find? (fun p => decide (p.pawnId = i)) = some pw →
      pw.playerId = 2 → pw.position = some (1, y) → pw.escaped = false →
      1 ≤ y → y ≤ 5 → s.board.occ (0, y) = none → s.board.occ (1, y) = some (1, i) →
      s.board.is_escape_position 0 y 2 = true ∧
      (s.move_pawn 1 i 0 y).2 = true ∧
      ((s.move_pawn 1 i 0 y).1.get_pawn 1 i).is_escaped = false ∧
      ((s.move_pawn 1 i 0 y).1.get_pawn 1 i).position = some (0, y) ∧
      (s.move_pawn 1 i 0 y).1.board.is_intersection_empty 0 y = false) :=
  ⟨move_into_escape_cell_p1, move_into_escape_cell_p2⟩

/-- C1 witness: the amended statement instantiated for both players — player
1's pawn 0 on (2,1) moving into (2,0), then player 2's pawn 0 on (1,5)
moving into (0,5); in both cases the move succeeds, the token is not escaped
and the escape cell stays occupied. -/
theorem c1_amended_witness :
    (state_pawn_before_escape_row.move_pawn 0 0 2 0).2 = true ∧
    ((state_pawn_before_escape_row.move_pawn 0 0 2 0).1.get_pawn 0 0).is_escaped = false ∧
    (state_pawn_before_escape_row.move_pawn 0 0 2 0).1.board.is_intersection_empty 2 0 = false ∧
    (state_p2_before_escape_col.move_pawn 1 0 0 5).2 = true ∧
    ((state_p2_before_escape_col.move_pawn 1 0 0 5).1.get_pawn 1 0).is_escaped = false ∧
    (state_p2_before_escape_col.move_pawn 1 0 0 5).1.board.is_intersection_empty 0 5 = false := by
  have h1 := c1_amended_move_into_escape_cell.1 state_pawn_before_escape_row 0 2
    ⟨1, 0, some (2, 1), false⟩ (by decide) (by decide) (by decide) (by decide) (by decide)
    (by decide) (by decide) (by decide) (by decide) (by decide)
  have h2 := c1_amended_move_into_escape_cell.2 state_p2_before_escape_col 0 5
    ⟨2, 0, some (1, 5), false⟩ (by decide) (by decide) (by decide) (by decide) (by decide)
    (by decide) (by decide) (by decide) (by decide) (by decide)
  exact ⟨h1.2.1, h1.2.2.1, h1.2.2.2.2, h2.2.1, h2.2.2.1, h2.2.2.2.2⟩

/-- Helper: on an active state where neither player can move and nobody has
won, `switch_turn` declares stalemate and ends the game, leaving the winner
field untouched. -/
theorem switch_turn_stalemate_of_blocked (s : GameState)
    (hphase : s.phase = Phase.playing)
    (hidx : s.currentPlayerIndex < 2)
    (hid1 : s.player1.playerId = 1) (hid2 : s.player2.playerId = 2)
    (hw1 : s.player1.has_won = false) (hw2 : s.player2.has_won = false)
    (h1 : s.player1.can_move_any_pawn s.board = false)
    (h2 : s.player2.can_move_any_pawn s.board = false) :
    (s.switch_turn).1.stalemate = true ∧
    (s.switch_turn).1.phase = Phase.gameOver ∧
    (s.switch_turn).1.winner = s.winner := by
  have h0 : s.currentPlayerIndex = 0 ∨ s.currentPlayerIndex = 1 := by omega
  unfold GameState.switch_turn
  rw [if_neg (by simp [hphase])]
  have hcv : ({ s with turnSkipped := false, skippedPlayerId := none, selectedPawn := none } : GameState).check_victory = none := by
    unfold GameState.check_victory
    simp [hw1, hw2]
  dsimp only
  rw [hcv]
  dsimp only
  rw [if_pos hphase]
  rcases h0 with h0 | h0 <;>
    simp [GameState.scan_loop, GameState.get_current_player, GameState.get_player,
      GameState.can_player_move, h0, hid1, hid2, h1, h2]


/-- C7: on an active state with no winning player in which neither player can
move any token, `switch_turn` sets the stalemate flag, ends the game, and
leaves the winner none. -/
theorem c7_switch_turn_stalemate (s : GameState)
    (hphase : s.phase = Phase.playing)
    (hidx : s.currentPlayerIndex < 2)
    (hid1 : s.player1.playerId = 1) (hid2 : s.player2.playerId = 2)
    (hv : s.check_victory = none)
    (hw : s.winner = none)
    (h1 : s.player1.can_move_any_pawn s.board = false)
    (h2 : s.player2.can_move_any_pawn s.board = false) :
    (s.switch_turn).1.stalemate = true ∧
    (s.switch_turn).1.phase = Phase.gameOver ∧
    (s.switch_turn).1.winner = none := by
  have hw1 : s.player1.has_won = false := by
    cases hb : s.player1.has_won
    · rfl
    · unfold GameState.check_victory at hv
      rw [hb] at hv
      simp at hv
  have hw2 : s.player2.has_won = false := by
    cases hb : s.player2.has_won
    · rfl
    · unfold GameState.check_victory at hv
      rw [hb] at hv
      split at hv <;> simp at hv
  obtain ⟨a, b, c⟩ := switch_turn_stalemate_of_blocked s hphase hidx hid1 hid2 hw1 hw2 h1 h2
  exact ⟨a, b, c.trans hw⟩

/-- C7 witness: the fresh game is such a state (no pawn can move), and
`switch_turn` declares stalemate on it. -/
theorem c7_witness :
    ((initial_game_state.switch_turn).1.stalemate = true) ∧
    ((initial_game_state.switch_turn).1.phase = Phase.gameOver) ∧
    ((initial_game_state.switch_turn).1.winner = none) := by
  exact c7_switch_turn_stalemate initial_game_state (by decide) (by decide) (by decide)
    (by decide) (by decide) (by decide) (by decide) (by decide)

/-- Helper: a player all of whose pawns are unplaced cannot move any pawn. -/
theorem can_move_any_pawn_of_unplaced (pl : Player) (b : Board)
    (h : ∀ p ∈ pl.pawns, p.position = none) :
    pl.can_move_any_pawn b = false := by
  unfold Player.can_move_any_pawn Player.get_pawns_on_board
  have hnil : pl.pawns.filter (fun p => p.is_on_board) = [] := by
    rw [List.filter_eq_nil_iff]
    intro p hp
    simp [Pawn.is_on_board, h p hp]
  rw [hnil]
  rfl

/-- Helper: a player with no escaped pawn has not won. -/
theorem has_won_false_of_none_escaped (pl : Player)
    (h : ∀ p ∈ pl.pawns, p.escaped = false) :
    pl.has_won = false := by
  unfold Player.has_won Player.get_escaped_pawns
  have hnil : pl.pawns.filter (fun p => p.is_escaped) = [] := by
    rw [List.filter_eq_nil_iff]
    intro p hp
    simp [Pawn.is_escaped, h p hp]
  rw [hnil]
  rfl

/-- C10: calling `switch_turn` on an active state in which every token of
both players is still unplaced — e.g. right after construction or reset —
declares a stalemate: flag set, phase game over, winner none. -/
theorem c10_switch_turn_on_tokenless_board_stalemates (s : GameState)
    (hphase : s.phase = Phase.playing)
    (hidx : s.currentPlayerIndex < 2)
    (hid1 : s.player1.playerId = 1) (hid2 : s.player2.playerId = 2)
    (hw : s.winner = none)
    (hall : ∀ p ∈ s.player1.pawns ++ s.player2.pawns, p.position = none ∧ p.escaped = false) :
    (s.switch_turn).1.stalemate = true ∧
    (s.switch_turn).1.phase = Phase.gameOver ∧
    (s.switch_turn).1.winner = none := by
  have h1p : ∀ p ∈ s.player1.pawns, p.position = none :=
    fun p hp => (hall p (List.mem_append_left _ hp)).1
  have h2p : ∀ p ∈ s.player2.pawns, p.position = none :=
    fun p hp => (hall p (List.mem_append_right _ hp)).1
  have h1e : ∀ p ∈ s.player1.pawns, p.escaped = false :=
    fun p hp => (hall p (List.mem_append_left _ hp)).2
  have h2e : ∀ p ∈ s.player2.pawns, p.escaped = false :=
    fun p hp => (hall p (List.mem_append_right _ hp)).2
  obtain ⟨a, b, c⟩ := switch_turn_stalemate_of_blocked s hphase hidx hid1 hid2
    (has_won_false_of_none_escaped _ h1e) (has_won_false_of_none_escaped _ h2e)
    (can_move_any_pawn_of_unplaced _ _ h1p) (can_move_any_pawn_of_unplaced _ _ h2p)
  exact ⟨a, b, c.trans hw⟩

/-- C10 witness: the fresh game, where both players hold 7 unplaced tokens. -/
theorem c10_witness :
    ((initial_game_state.switch_turn).1.stalemate = true) ∧
    ((initial_game_state.switch_turn).1.phase = Phase.gameOver) := by
  have h := c10_switch_turn_on_tokenless_board_stalemates initial_game_state (by decide)
    (by decide) (by decide) (by decide) (by decide) (by decide)
  exact ⟨h.1, h.2.1⟩


/-- C9: after `reset_game`, whatever the prior state of a game whose players
hold their 7-pawn rosters: the board is fully empty, both players have 7
unplaced pawns with cleared positions and escaped flags, the phase is
active, the current player is player 1 (index 0), and winner, stalemate,
skip bookkeeping and the selected-pawn reference are all cleared. -/
theorem c9_reset_restores_fresh_configuration (s : GameState)
    (h1 : s.player1.pawns.length = 7) (h2 : s.player2.pawns.length = 7) :
    (s.reset_game).board.occ = (fun _ => none) ∧
    (s.reset_game).player1.get_unplaced_pawns.length = 7 ∧
    (s.reset_game).player2.get_unplaced_pawns.length = 7 ∧
    (∀ p ∈ (s.reset_game).player1.pawns ++ (s.reset_game).player2.pawns,
      p.position = none ∧ p.escaped = false) ∧
    (s.reset_game).phase = Phase.playing ∧
    (s.reset_game).currentPlayerIndex = 0 ∧
    (s.reset_game).winner = none ∧
    (s.reset_game).stalemate = false ∧
    (s.reset_game).turnSkipped = false ∧
    (s.reset_game).skippedPlayerId = none ∧
    (s.reset_game).selectedPawn = none := by
  refine ⟨rfl, ?_, ?_, ?_, rfl, rfl, rfl, rfl, rfl, rfl, rfl⟩
  · unfold GameState.reset_game Player.get_unplaced_pawns
    dsimp only
    have hall : ∀ a ∈ (s.player1.pawns.map
        (fun p => { p with position := none, escaped := false })),
        (!a.is_on_board && !a.is_escaped) = true := by
      intro a ha
      rcases List.mem_map.mp ha with ⟨q, hq, rfl⟩
      rfl
    rw [List.filter_eq_self.mpr hall, List.length_map, h1]
  · unfold GameState.reset_game Player.get_unplaced_pawns
    dsimp only
    have hall : ∀ a ∈ (s.player2.pawns.map
        (fun p => { p with position := none, escaped := false })),
        (!a.is_on_board && !a.is_escaped) = true := by
      intro a ha
      rcases List.mem_map.mp ha with ⟨q, hq, rfl⟩
      rfl
    rw [List.filter_eq_self.mpr hall, List.length_map, h2]
  · intro p hp
    unfold GameState.reset_game at hp
    dsimp only at hp
    rcases List.mem_append.mp hp with hp1 | hp1 <;>
    · rcases List.mem_map.mp hp1 with ⟨q, hq, rfl⟩
      exact ⟨rfl, rfl⟩

/-- C9 witness: resetting the game-over stalemate state restores the fresh
configuration. -/
theorem c9_witness :
    (after_first_switch.reset_game).phase = Phase.playing ∧
    (after_first_switch.reset_game).currentPlayerIndex = 0 ∧
    (after_first_switch.reset_game).stalemate = false ∧
    (after_first_switch.reset_game).player1.get_unplaced_pawns.length = 7 := by
  have h := c9_reset_restores_fresh_configuration after_first_switch (by decide) (by decide)
  exact ⟨h.2.2.2.2.1, h.2.2.2.2.2.1, h.2.2.2.2.2.2.2.1, h.2.1⟩

end GridEscape
